import Mathlib

/-!
Verification of the redshift transition engine (src/src/redshift.c) against its
natural-language specification.  The C code is shallowly embedded: machine
floats are modelled as exact rationals, C float-to-int conversion is modelled
by truncation toward zero, and the stateful continuous loop is modelled as an
explicit step function on an engine-state record together with a trace of
backend calls.
-/

namespace Redshift

/-- Modelled from the spec: SOLAR_CIVIL_TWILIGHT_ELEV comes from solar.h, which is
not present under src; the spec gives the civil-twilight elevation as -6 degrees
(redshift.c line 83: TRANSITION_LOW = SOLAR_CIVIL_TWILIGHT_ELEV). -/
def TRANSITION_LOW : ℚ := -6

/-- Elevation threshold above which it is daytime (redshift.c line 84). -/
def TRANSITION_HIGH : ℚ := 3

/-- C float-to-int conversion truncates toward zero. -/
def ctrunc (q : ℚ) : ℤ := if q < 0 then -Int.floor (-q) else Int.floor q

/-- Interpolation fraction computed in the transition branch of calculate_temp
(redshift.c lines 200-201). -/
def interp_a (elevation : ℚ) : ℚ :=
  (TRANSITION_LOW - elevation) / (TRANSITION_LOW - TRANSITION_HIGH)

/-- calculate_temp (redshift.c lines 190-212).  The verbose printing is ignored;
the assignment of the interpolated float to the int temp truncates. -/
def calculate_temp (elevation : ℚ) (temp_day temp_night : ℤ) : ℤ :=
  if elevation < TRANSITION_LOW then temp_night
  else if elevation < TRANSITION_HIGH then
    ctrunc ((1 - interp_a elevation) * (temp_night : ℚ) + interp_a elevation * (temp_day : ℚ))
  else temp_day

/-- Calls made against the gamma backend (the capability contract of section 6
of the spec: set_temperature, restore, free).  init is not modelled since all
claims concern the running engine. -/
inductive BackendCall : Type where
  | setTemp (temp : ℤ) : BackendCall
  | restore : BackendCall
  | free : BackendCall
  deriving DecidableEq

/-- How a run of the engine ended: still looping when the supplied inputs ran
out, returned normally from the loop, or called exit(EXIT_FAILURE). -/
inductive ExitKind : Type where
  | running : ExitKind
  | normal : ExitKind
  | fatal : ExitKind
  deriving DecidableEq

/-- The locals of do_continous that survive from one loop iteration to the next
(redshift.c lines 580-594 and 616-617). -/
structure EngineState : Type where
  short_trans_end : ℚ
  short_trans : Bool
  short_trans_done : Bool
  short_trans_create : Bool
  short_trans_begin : Bool
  short_trans_len : ℤ
  adjustment_alpha : ℚ
  done : Bool
  disabled : Bool
  deriving DecidableEq

/-- Initial state of do_continous (redshift.c lines 582-594, 616-617): an
initial 10-second transition from 6500K is requested. -/
def init_state : EngineState where
  short_trans_end := 0
  short_trans := false
  short_trans_done := false
  short_trans_create := true
  short_trans_begin := true
  short_trans_len := 10
  adjustment_alpha := 0
  done := false
  disabled := false

/-- Options of the engine that the loop reads (subset of rs_opts).  Latitude
and longitude are absorbed into the per-tick elevation input, since
solar_elevation (solar.c) is not part of the sources under verification. -/
structure RsOpts : Type where
  transition : Bool
  temp_day : ℤ
  temp_night : ℤ
  deriving DecidableEq

/-- The external inputs consumed by one iteration of the loop: the pending
signal flags, the clock read (none models a systemtime_get_time failure), the
solar elevation the external solar_elevation would return for that instant,
and whether the backend set_temperature call succeeds. -/
structure TickInput : Type where
  disable : Bool
  exiting : Bool
  time : Option ℚ
  elevation : ℚ
  set_temp_ok : Bool
  deriving DecidableEq

/-- Result of one loop iteration: continue with a new state, leave the loop
(break), or exit(EXIT_FAILURE); each carries the backend calls it made. -/
inductive TickResult : Type where
  | cont (s : EngineState) (calls : List BackendCall) : TickResult
  | brk (calls : List BackendCall) : TickResult
  | fatal (calls : List BackendCall) : TickResult
  deriving DecidableEq

/-- Clamp to the unit interval, MAX(0.0, MIN(alpha, 1.0)) (redshift.c line 708). -/
def clamp01 (a : ℚ) : ℚ := max 0 (min a 1)

/-- Processing of the disable flag at the top of the loop (redshift.c lines
620-635). -/
def handle_disable (s : EngineState) (dis : Bool) : EngineState :=
  if dis then
    if !s.disabled then
      { s with short_trans_create := true, short_trans_len := 2,
               short_trans_begin := false, adjustment_alpha := 1,
               disabled := true }
    else
      { s with short_trans_create := true, short_trans_len := 2,
               short_trans_begin := true, adjustment_alpha := 0,
               disabled := false }
  else s

/-- Processing of the exiting flag (redshift.c lines 638-656).  A second stop
while done is set aborts the ongoing transition; the first stop requests a
2-second transition back to 6500K unless disabled, and sets done either way. -/
def handle_exiting (s : EngineState) (ex : Bool) : EngineState :=
  if ex then
    if s.done then { s with short_trans := false }
    else if !s.disabled then
      { s with short_trans_create := true, short_trans_begin := false,
               short_trans_len := 2, adjustment_alpha := 1, done := true }
    else { s with done := true }
  else s

/-- Setting up a requested transition (redshift.c lines 669-678).  When
transitions are disabled by option -r, short_trans_done is raised instead (and
short_trans_create is, faithfully to the source, not cleared). -/
def create_transition (transition : Bool) (now : ℚ) (s : EngineState) : EngineState :=
  if s.short_trans_create then
    if transition then
      { s with short_trans_end := now + (s.short_trans_len : ℚ),
               short_trans := true, short_trans_create := false }
    else { s with short_trans_done := true }
  else s

/-- The alpha value computed and clamped by the ongoing-transition block
(redshift.c lines 698-708): the remaining time over the length, replaced by
one minus that when the transition runs toward 6500K (short_trans_begin
false). -/
def trans_alpha (now : ℚ) (s : EngineState) : ℚ :=
  clamp01 (if s.short_trans_begin then
      (s.short_trans_end - now) / (s.short_trans_len : ℚ)
    else 1 - (s.short_trans_end - now) / (s.short_trans_len : ℚ))

/-- The ongoing-transition block (redshift.c lines 688-709): detect the end of
the transition, then compute and clamp adjustment_alpha.  The source clears
short_trans and raises short_trans_done before computing alpha, but the
cleared fields do not enter the alpha formula, so the value is trans_alpha of
the incoming state either way. -/
def update_transition (now : ℚ) (s : EngineState) : EngineState :=
  if s.short_trans then
    if now > s.short_trans_end then
      { s with short_trans := false, short_trans_done := true,
               adjustment_alpha := trans_alpha now s }
    else { s with adjustment_alpha := trans_alpha now s }
  else s

/-- End-of-transition handling (redshift.c lines 712-718): when the engine is
disabled, the saved gamma ramps are restored. -/
def finish_transition (s : EngineState) : EngineState × List BackendCall :=
  if s.short_trans_done then
    ({ s with short_trans_done := false },
     if s.disabled then [BackendCall.restore] else [])
  else (s, [])

/-- Interpolation between 6500K and the calculated temperature (redshift.c
lines 722-723); the assignment to the int temp truncates. -/
def apply_adjustment (alpha : ℚ) (temp : ℤ) : ℤ :=
  ctrunc (alpha * 6500 + (1 - alpha) * (temp : ℚ))

/-- The state and restore calls produced by one iteration up to the point where
the interpolated temperature is computed (redshift.c lines 620-718). -/
def tick_state (opts : RsOpts) (s0 : EngineState) (inp : TickInput) (now : ℚ) :
    EngineState × List BackendCall :=
  let s1 := handle_disable s0 inp.disable
  let s2 := handle_exiting s1 inp.exiting
  let s3 := create_transition opts.transition now s2
  let s4 := update_transition now s3
  finish_transition s4

/-- One full iteration of the do_continous loop (redshift.c lines 618-753).
A failing clock read frees the backend state and exits (lines 660-666); a
failing set_temperature does the same (lines 737-742); neither restores.  The
break at line 726 happens before the set_temperature call. -/
def tick (opts : RsOpts) (s0 : EngineState) (inp : TickInput) : TickResult :=
  match inp.time with
  | none => TickResult.fatal [BackendCall.free]
  | some now =>
    let p := tick_state opts s0 inp now
    let temp := calculate_temp inp.elevation opts.temp_day opts.temp_night
    let temp2 := apply_adjustment p.1.adjustment_alpha temp
    if p.1.done && !p.1.short_trans then TickResult.brk p.2
    else if !p.1.disabled || p.1.short_trans then
      if inp.set_temp_ok then TickResult.cont p.1 (p.2 ++ [BackendCall.setTemp temp2])
      else TickResult.fatal (p.2 ++ [BackendCall.setTemp temp2, BackendCall.free])
    else TickResult.cont p.1 p.2

/-- Running do_continous on a finite list of tick inputs, collecting the trace
of backend calls.  On a normal break the loop restores the saved ramps
(redshift.c line 756) and, back in main, the state is freed (line 795); a
fatal tick already freed the state and exits the process, skipping both. -/
def do_continous (opts : RsOpts) : EngineState → List TickInput → List BackendCall × ExitKind
  | _, [] => ([], ExitKind.running)
  | s, inp :: rest =>
    match tick opts s inp with
    | TickResult.cont s1 cs =>
      let r := do_continous opts s1 rest
      (cs ++ r.1, r.2)
    | TickResult.brk cs => (cs ++ [BackendCall.restore, BackendCall.free], ExitKind.normal)
    | TickResult.fatal cs => (cs, ExitKind.fatal)

/-- do_oneshot (redshift.c lines 541-575) followed by the gamma_state_free of
main (line 795) on success.  Both failure paths free the state and exit
without restoring (lines 549-550 and 571-572). -/
def do_oneshot (opts : RsOpts) (time : Option ℚ) (elev : ℚ) (set_temp_ok : Bool) :
    List BackendCall × ExitKind :=
  match time with
  | none => ([BackendCall.free], ExitKind.fatal)
  | some _ =>
    let temp := calculate_temp elev opts.temp_day opts.temp_night
    if set_temp_ok then ([BackendCall.setTemp temp, BackendCall.free], ExitKind.normal)
    else ([BackendCall.setTemp temp, BackendCall.free], ExitKind.fatal)

/-- C strchr on a character list: the part before the first occurrence of c and
the part after it, or none when c does not occur. -/
def strchr (c : Char) : List Char → Option (List Char × List Char)
  | [] => none
  | x :: xs =>
    if x = c then some ([], xs)
    else
      match strchr c xs with
      | none => none
      | some p => some (x :: p.1, p.2)

/-- The manual parsing of the -g argument (redshift.c lines 291-314): splitting
optarg at the first two colons, the text before the first colon is assigned to
gamma[0], the text between the colons to gamma[1], and the rest to gamma[2]
(the source comments label these Red, Blue and Green respectively).  With no
colon one value serves all three channels; with exactly one colon the program
reports a malformed argument and exits. -/
def parse_gamma_arg (optarg : List Char) :
    Option (List Char × List Char × List Char) :=
  match strchr ':' optarg with
  | none => some (optarg, optarg, optarg)
  | some p0 =>
    match strchr ':' p0.2 with
    | none => none
    | some p1 => some (p0.1, p1.1, p1.2)

/-- Modelled from the spec: the fade fraction as the spec describes it,
computed from elapsed time over duration, clamped to [0,1], and inverted when
the transition direction is toward neutral.  Used only to compare the spec
wording against the code. -/
def alpha_claimed (now endt : ℚ) (len : ℤ) (toward_neutral : Bool) : ℚ :=
  if toward_neutral then 1 - clamp01 ((now - (endt - (len : ℚ))) / (len : ℚ))
  else clamp01 ((now - (endt - (len : ℚ))) / (len : ℚ))

/-- Concrete options: transitions enabled, day 5500K, night 3700K (the
defaults of redshift.c lines 75-76). -/
def opts0 : RsOpts where
  transition := true
  temp_day := 5500
  temp_night := 3700

/-- Concrete scenario for the disable toggle: a disable event at time 0 while
the sun is below civil twilight, two more ticks to let the 2-second fade to
neutral finish, a second disable event at time 3, and a tick at time 5.5 to
let the fade back finish. -/
def disable_scenario : List TickInput :=
  [ ⟨true, false, some 0, -10, true⟩,
    ⟨false, false, some 1, -10, true⟩,
    ⟨false, false, some (5/2), -10, true⟩,
    ⟨true, false, some 3, -10, true⟩,
    ⟨false, false, some (11/2), -10, true⟩ ]

/-- A state mid-way through a 2-second fade toward neutral that started at
time 0 (short_trans_begin false, engine disabled), as built by a disable
event. -/
def fade_state : EngineState where
  short_trans_end := 2
  short_trans := true
  short_trans_done := false
  short_trans_create := false
  short_trans_begin := false
  short_trans_len := 2
  adjustment_alpha := 1
  done := false
  disabled := true

/-- fade_state after the tick at time 1: alpha has become 1/2. -/
def fade_state_mid : EngineState :=
  { fade_state with adjustment_alpha := 1/2 }

/-- fade_state after the tick at time 0: alpha has become 0. -/
def fade_state_zero : EngineState :=
  { fade_state with adjustment_alpha := 0 }

/-- A tick input at time 1 with no pending signals, night-time elevation and a
succeeding backend. -/
def fade_inp : TickInput where
  disable := false
  exiting := false
  time := some 1
  elevation := -10
  set_temp_ok := true

/-- A tick input at time 0 with no pending signals, night-time elevation and a
succeeding backend. -/
def fade_inp0 : TickInput where
  disable := false
  exiting := false
  time := some 0
  elevation := -10
  set_temp_ok := true

/-- A state with done already set and a 2-second fade toward neutral still in
flight, as left behind by a first stop signal. -/
def stop_state : EngineState where
  short_trans_end := 3
  short_trans := true
  short_trans_done := false
  short_trans_create := false
  short_trans_begin := false
  short_trans_len := 2
  adjustment_alpha := 0
  done := true
  disabled := false

/-- A tick input carrying a second stop signal at time 2. -/
def stop_inp : TickInput where
  disable := false
  exiting := true
  time := some 2
  elevation := -10
  set_temp_ok := true

/-- A tick input whose clock read fails. -/
def clock_fail_inp : TickInput where
  disable := false
  exiting := false
  time := none
  elevation := 0
  set_temp_ok := true

lemma interp_a_eq (e : ℚ) : interp_a e = (e + 6) / 9 := by
  unfold interp_a TRANSITION_LOW TRANSITION_HIGH
  ring

lemma interp_a_nonneg {e : ℚ} (h : TRANSITION_LOW ≤ e) : 0 ≤ interp_a e := by
  rw [interp_a_eq]
  have h6 : (0 : ℚ) ≤ e + 6 := by
    unfold TRANSITION_LOW at h; linarith
  positivity

lemma interp_a_le_one {e : ℚ} (h : e < TRANSITION_HIGH) : interp_a e ≤ 1 := by
  rw [interp_a_eq]
  rw [div_le_one (by norm_num : (0:ℚ) < 9)]
  unfold TRANSITION_HIGH at h
  linarith

/-- C2 counterexample: at elevation -3 with day-temp 5501 and night-temp 3700
the code stores the interpolated value in an int, giving 4300 and not the exact
interpolation 12901/3, so the claimed exact equality fails. -/
theorem calculate_temp_truncation_counterexample :
    calculate_temp (-3) 5501 3700 = 4300 ∧
    ((calculate_temp (-3) 5501 3700 : ℚ) ≠
      (1 - interp_a (-3)) * 3700 + interp_a (-3) * 5501) := by
  have ha : interp_a (-3) = 1/3 := by rw [interp_a_eq]; norm_num
  have hc : calculate_temp (-3) 5501 3700 = 4300 := by
    unfold calculate_temp
    rw [if_neg (by norm_num [TRANSITION_LOW]), if_pos (by norm_num [TRANSITION_HIGH]), ha]
    norm_num [ctrunc]
  refine ⟨hc, ?_⟩
  rw [hc, ha]
  norm_num

/-- C2 (amended): calculate_temp returns night-temp below TRANSITION_LOW,
day-temp from TRANSITION_HIGH up, and in between the integer truncation of
(1-a)*night + a*day, where a = interp_a elevation lies in [0,1] on the band. -/
theorem calculate_temp_cases (elevation : ℚ) (temp_day temp_night : ℤ) :
    (elevation < TRANSITION_LOW →
      calculate_temp elevation temp_day temp_night = temp_night) ∧
    (TRANSITION_LOW ≤ elevation → elevation < TRANSITION_HIGH →
      calculate_temp elevation temp_day temp_night =
        ctrunc ((1 - interp_a elevation) * (temp_night : ℚ) +
          interp_a elevation * (temp_day : ℚ)) ∧
      0 ≤ interp_a elevation ∧ interp_a elevation ≤ 1) ∧
    (TRANSITION_HIGH ≤ elevation →
      calculate_temp elevation temp_day temp_night = temp_day) := by
  refine ⟨?_, ?_, ?_⟩
  · intro h
    unfold calculate_temp
    rw [if_pos h]
  · intro hlo hhi
    refine ⟨?_, interp_a_nonneg hlo, interp_a_le_one hhi⟩
    unfold calculate_temp
    rw [if_neg (not_lt.mpr hlo), if_pos hhi]
  · intro h
    unfold calculate_temp
    have h1 : ¬ elevation < TRANSITION_LOW := by
      unfold TRANSITION_LOW TRANSITION_HIGH at *
      intro hc; linarith
    rw [if_neg h1, if_neg (not_lt.mpr h)]

/-- Witness for calculate_temp_cases at concrete points in each period. -/
theorem calculate_temp_cases_witness :
    calculate_temp (-7) 5500 3700 = 3700 ∧
    (calculate_temp (-3) 5500 3700 =
        ctrunc ((1 - interp_a (-3)) * (3700 : ℚ) + interp_a (-3) * (5500 : ℚ)) ∧
      0 ≤ interp_a (-3) ∧ interp_a (-3) ≤ 1) ∧
    calculate_temp 5 5500 3700 = 5500 :=
  ⟨(calculate_temp_cases (-7) 5500 3700).1 (by norm_num [TRANSITION_LOW]),
   (calculate_temp_cases (-3) 5500 3700).2.1 (by norm_num [TRANSITION_LOW])
     (by norm_num [TRANSITION_HIGH]),
   (calculate_temp_cases 5 5500 3700).2.2 (by norm_num [TRANSITION_HIGH])⟩

/-- C4 counterexample: the interpolation fraction is 1 at TRANSITION_HIGH and
0 at TRANSITION_LOW, not the other way around as claimed. -/
theorem interp_a_endpoints_counterexample :
    interp_a TRANSITION_HIGH = 1 ∧ interp_a TRANSITION_LOW = 0 ∧
    ¬(interp_a TRANSITION_HIGH = 0 ∧ interp_a TRANSITION_LOW = 1) := by
  have h1 : interp_a TRANSITION_HIGH = 1 := by
    rw [interp_a_eq]; norm_num [TRANSITION_HIGH]
  have h0 : interp_a TRANSITION_LOW = 0 := by
    rw [interp_a_eq]; norm_num [TRANSITION_LOW]
  refine ⟨h1, h0, ?_⟩
  rintro ⟨hc, _⟩
  rw [h1] at hc
  norm_num at hc

/-- C4 (amended): interp_a is the affine map e ↦ (e+6)/9, hence continuous and
monotone increasing on the transition band, with value 0 at TRANSITION_LOW and
1 at TRANSITION_HIGH. -/
theorem interp_a_monotone_affine :
    (∀ e : ℚ, interp_a e = (e + 6) / 9) ∧
    (∀ e1 e2 : ℚ, e1 ≤ e2 → interp_a e1 ≤ interp_a e2) ∧
    interp_a TRANSITION_LOW = 0 ∧ interp_a TRANSITION_HIGH = 1 := by
  refine ⟨interp_a_eq, ?_, ?_, ?_⟩
  · intro e1 e2 h
    rw [interp_a_eq, interp_a_eq]
    apply div_le_div_of_nonneg_right ?_ (by norm_num)
    · linarith
  · rw [interp_a_eq]; norm_num [TRANSITION_LOW]
  · rw [interp_a_eq]; norm_num [TRANSITION_HIGH]

/-- Witness for interp_a_monotone_affine: monotonicity applied at -5 and 0. -/
theorem interp_a_monotone_affine_witness :
    interp_a (-5) ≤ interp_a 0 :=
  interp_a_monotone_affine.2.1 (-5) 0 (by norm_num)

/-- C5 counterexample: at elevation -3 the interpolation fraction is 1/3 and
the target is (2/3)*3700 + (1/3)*5500 = 4300 exactly, which is 333 away from
the claimed 3967. -/
theorem midpoint_temp_counterexample :
    interp_a (-3) = 1/3 ∧
    calculate_temp (-3) 5500 3700 = 4300 ∧
    ((1 - interp_a (-3)) * 3700 + interp_a (-3) * 5500 : ℚ) = 4300 ∧
    (4300 : ℤ) ≠ 3967 ∧ (4300 : ℤ) - 3967 = 333 := by
  have ha : interp_a (-3) = 1/3 := by rw [interp_a_eq]; norm_num
  refine ⟨ha, ?_, ?_, by norm_num, by norm_num⟩
  · unfold calculate_temp
    rw [if_neg (by norm_num [TRANSITION_LOW]), if_pos (by norm_num [TRANSITION_HIGH]), ha]
    norm_num [ctrunc]
  · rw [ha]; norm_num

/-- C5 (amended): at elevation -3 with day 5500 and night 3700 the fraction is
(-6 - (-3))/(-6 - 3) = 1/3 and the target is exactly 4300K. -/
theorem midpoint_temp_exact :
    interp_a (-3) = ((-6 : ℚ) - (-3)) / ((-6 : ℚ) - 3) ∧
    interp_a (-3) = 1/3 ∧
    (calculate_temp (-3) 5500 3700 : ℚ) = (2/3 : ℚ) * 3700 + (1/3 : ℚ) * 5500 := by
  have ha : interp_a (-3) = 1/3 := by rw [interp_a_eq]; norm_num
  refine ⟨by rw [ha]; norm_num, ha, ?_⟩
  have hc : calculate_temp (-3) 5500 3700 = 4300 := by
    unfold calculate_temp
    rw [if_neg (by norm_num [TRANSITION_LOW]), if_pos (by norm_num [TRANSITION_HIGH]), ha]
    norm_num [ctrunc]
  rw [hc]; norm_num

lemma strchr_append (c : Char) (l r : List Char) (h : c ∉ l) :
    strchr c (l ++ c :: r) = some (l, r) := by
  induction l with
  | nil => simp [strchr]
  | cons x xs ih =>
    have hx : ¬ x = c := by
      intro he; exact h (by rw [he]; exact List.mem_cons_self _ _)
    have hxs : c ∉ xs := fun hm => h (List.mem_cons_of_mem _ hm)
    simp only [List.cons_append, strchr, if_neg hx]
    rw [List.append_eq, ih hxs]

/-- C9: a three-component gamma argument r:g:b is parsed positionally, the
first component into gamma[0], the second into gamma[1] and the third into
gamma[2]; only the comments in the source swap the blue and green labels. -/
theorem gamma_arg_positional (s0 s1 s2 : List Char)
    (h0 : ':' ∉ s0) (h1 : ':' ∉ s1) :
    parse_gamma_arg (s0 ++ ':' :: (s1 ++ ':' :: s2)) = some (s0, s1, s2) := by
  unfold parse_gamma_arg
  rw [strchr_append ':' s0 (s1 ++ ':' :: s2) h0]
  simp only
  rw [strchr_append ':' s1 s2 h1]

/-- Witness for gamma_arg_positional on the argument 1:2:3. -/
theorem gamma_arg_positional_witness :
    parse_gamma_arg ([Char.ofNat 49] ++ ':' :: ([Char.ofNat 50] ++ ':' :: [Char.ofNat 51])) =
      some ([Char.ofNat 49], [Char.ofNat 50], [Char.ofNat 51]) :=
  gamma_arg_positional [Char.ofNat 49] [Char.ofNat 50] [Char.ofNat 51]
    (by decide) (by decide)

lemma clamp01_nonneg (a : ℚ) : 0 ≤ clamp01 a := le_max_left 0 _

lemma clamp01_le_one (a : ℚ) : clamp01 a ≤ 1 :=
  max_le (by norm_num) (min_le_right a 1)

lemma trans_alpha_nonneg (now : ℚ) (s : EngineState) : 0 ≤ trans_alpha now s :=
  clamp01_nonneg _

lemma trans_alpha_le_one (now : ℚ) (s : EngineState) : trans_alpha now s ≤ 1 :=
  clamp01_le_one _

lemma alpha_handle_disable (s : EngineState) (d : Bool)
    (h0 : 0 ≤ s.adjustment_alpha) (h1 : s.adjustment_alpha ≤ 1) :
    0 ≤ (handle_disable s d).adjustment_alpha ∧
      (handle_disable s d).adjustment_alpha ≤ 1 := by
  unfold handle_disable
  split
  · split
    · exact ⟨zero_le_one, le_refl 1⟩
    · exact ⟨le_refl 0, zero_le_one⟩
  · exact ⟨h0, h1⟩

lemma alpha_handle_exiting (s : EngineState) (ex : Bool)
    (h0 : 0 ≤ s.adjustment_alpha) (h1 : s.adjustment_alpha ≤ 1) :
    0 ≤ (handle_exiting s ex).adjustment_alpha ∧
      (handle_exiting s ex).adjustment_alpha ≤ 1 := by
  unfold handle_exiting
  split
  · split
    · exact ⟨h0, h1⟩
    · split
      · exact ⟨zero_le_one, le_refl 1⟩
      · exact ⟨h0, h1⟩
  · exact ⟨h0, h1⟩

lemma alpha_create_transition (tr : Bool) (now : ℚ) (s : EngineState) :
    (create_transition tr now s).adjustment_alpha = s.adjustment_alpha := by
  unfold create_transition
  split
  · split <;> rfl
  · rfl

lemma alpha_update_transition (now : ℚ) (s : EngineState)
    (h0 : 0 ≤ s.adjustment_alpha) (h1 : s.adjustment_alpha ≤ 1) :
    0 ≤ (update_transition now s).adjustment_alpha ∧
      (update_transition now s).adjustment_alpha ≤ 1 := by
  unfold update_transition
  split
  · split
    · exact ⟨trans_alpha_nonneg now s, trans_alpha_le_one now s⟩
    · exact ⟨trans_alpha_nonneg now s, trans_alpha_le_one now s⟩
  · exact ⟨h0, h1⟩

lemma alpha_finish_transition (s : EngineState) :
    (finish_transition s).1.adjustment_alpha = s.adjustment_alpha := by
  unfold finish_transition
  split <;> rfl

lemma alpha_tick_state (opts : RsOpts) (s0 : EngineState) (inp : TickInput)
    (now : ℚ) (h0 : 0 ≤ s0.adjustment_alpha) (h1 : s0.adjustment_alpha ≤ 1) :
    0 ≤ (tick_state opts s0 inp now).1.adjustment_alpha ∧
      (tick_state opts s0 inp now).1.adjustment_alpha ≤ 1 := by
  have hd := alpha_handle_disable s0 inp.disable h0 h1
  have he := alpha_handle_exiting (handle_disable s0 inp.disable) inp.exiting hd.1 hd.2
  have hc0 : 0 ≤ (create_transition opts.transition now
      (handle_exiting (handle_disable s0 inp.disable) inp.exiting)).adjustment_alpha := by
    rw [alpha_create_transition]; exact he.1
  have hc1 : (create_transition opts.transition now
      (handle_exiting (handle_disable s0 inp.disable) inp.exiting)).adjustment_alpha ≤ 1 := by
    rw [alpha_create_transition]; exact he.2
  have hu := alpha_update_transition now
    (create_transition opts.transition now
      (handle_exiting (handle_disable s0 inp.disable) inp.exiting)) hc0 hc1
  unfold tick_state
  rw [alpha_finish_transition]
  exact hu

/-- C6: any tick of the continuous loop that keeps looping leaves
adjustment_alpha in [0,1], however far the clock has overshot the end of the
transition, because the update clamps with MAX(0, MIN(alpha, 1)). -/
theorem alpha_clamped (opts : RsOpts) (s0 : EngineState) (inp : TickInput)
    (s1 : EngineState) (cs : List BackendCall)
    (h0 : 0 ≤ s0.adjustment_alpha) (h1 : s0.adjustment_alpha ≤ 1)
    (heq : tick opts s0 inp = TickResult.cont s1 cs) :
    0 ≤ s1.adjustment_alpha ∧ s1.adjustment_alpha ≤ 1 := by
  have hb := alpha_tick_state opts s0 inp
  cases htime : inp.time with
  | none => simp [tick, htime] at heq
  | some now =>
    simp only [tick, htime] at heq
    split at heq
    · simp at heq
    · split at heq
      · split at heq
        · rw [TickResult.cont.injEq] at heq
          rw [← heq.1]
          exact hb now h0 h1
        · simp at heq
      · rw [TickResult.cont.injEq] at heq
        rw [← heq.1]
        exact hb now h0 h1

/-- Witness for alpha_clamped: a tick of fade_state at time 1, where the new
alpha is 1/2. -/
theorem alpha_clamped_witness :
    0 ≤ fade_state_mid.adjustment_alpha ∧ fade_state_mid.adjustment_alpha ≤ 1 :=
  alpha_clamped opts0 fade_state fade_inp fade_state_mid
    [BackendCall.setTemp 5100] (by norm_num [fade_state]) (by norm_num [fade_state])
    (by norm_num [tick, fade_inp, tick_state, handle_disable, handle_exiting,
      create_transition, update_transition, trans_alpha, finish_transition,
      apply_adjustment, clamp01, calculate_temp, interp_a, ctrunc,
      TRANSITION_LOW, TRANSITION_HIGH, fade_state, fade_state_mid, opts0,
      min_def, max_def])

lemma finish_transition_no_settemp (s : EngineState) (t : ℤ) :
    BackendCall.setTemp t ∉ (finish_transition s).2 := by
  unfold finish_transition
  split
  · split <;> simp
  · simp

/-- C10: a tick that keeps looping with the engine disabled and no short
transition active makes no set_temperature call; the only backend call it can
make is the restore at the end of the disable fade (redshift.c line 733 guards
the adjustment with !disabled || short_trans). -/
theorem no_set_temperature_when_disabled (opts : RsOpts) (s0 : EngineState)
    (inp : TickInput) (s1 : EngineState) (cs : List BackendCall)
    (heq : tick opts s0 inp = TickResult.cont s1 cs)
    (hdis : s1.disabled = true) (htr : s1.short_trans = false) :
    ∀ t : ℤ, BackendCall.setTemp t ∉ cs := by
  cases htime : inp.time with
  | none => simp [tick, htime] at heq
  | some now =>
    simp only [tick, htime] at heq
    split at heq
    · simp at heq
    · rename_i hguard
      split at heq
      · split at heq
        · rw [TickResult.cont.injEq] at heq
          rename_i hsel _
          rw [← heq.1] at hdis htr
          rw [hdis, htr] at hsel
          simp at hsel
        · simp at heq
      · rw [TickResult.cont.injEq] at heq
        intro t
        rw [← heq.2]
        exact finish_transition_no_settemp _ t

/-- Witness for no_set_temperature_when_disabled: the tick at time 2.5 of the
disable scenario, which only restores the saved ramps. -/
theorem no_set_temperature_when_disabled_witness :
    BackendCall.setTemp 6500 ∉ [BackendCall.restore] :=
  no_set_temperature_when_disabled opts0 fade_state_zero
    ⟨false, false, some (5/2), -10, true⟩
    { fade_state_zero with short_trans := false, adjustment_alpha := 1 }
    [BackendCall.restore]
    (by norm_num [tick, tick_state, handle_disable, handle_exiting,
      create_transition, update_transition, trans_alpha, finish_transition,
      apply_adjustment, clamp01, calculate_temp, interp_a, ctrunc,
      TRANSITION_LOW, TRANSITION_HIGH, fade_state_zero, fade_state, opts0,
      min_def, max_def])
    rfl rfl 6500

/-- C7: when a stop signal is seen while done is already set and a short
transition is still in flight, the transition is dropped on the spot, the loop
breaks on that very tick without another set_temperature, and the engine still
restores the saved ramps (and the state is then freed in main) before
returning. -/
theorem second_stop_aborts (opts : RsOpts) (s0 : EngineState) (inp : TickInput)
    (t : ℚ) (rest : List TickInput)
    (hdone : s0.done = true) (htr : s0.short_trans = true)
    (hcr : s0.short_trans_create = false) (hfin : s0.short_trans_done = false)
    (hd : inp.disable = false) (hex : inp.exiting = true)
    (htime : inp.time = some t) :
    tick opts s0 inp = TickResult.brk [] ∧
    do_continous opts s0 (inp :: rest) =
      ([BackendCall.restore, BackendCall.free], ExitKind.normal) := by
  have h1 : tick opts s0 inp = TickResult.brk [] := by
    simp only [tick, htime]
    simp [tick_state, handle_disable, handle_exiting, create_transition,
      update_transition, finish_transition, hd, hex, hdone, htr, hcr, hfin]
  refine ⟨h1, ?_⟩
  simp [do_continous, h1]

/-- Witness for second_stop_aborts: a second stop at time 2 against stop_state,
whose fade would only end at time 3. -/
theorem second_stop_aborts_witness :
    tick opts0 stop_state stop_inp = TickResult.brk [] ∧
    do_continous opts0 stop_state [stop_inp] =
      ([BackendCall.restore, BackendCall.free], ExitKind.normal) :=
  second_stop_aborts opts0 stop_state stop_inp 2 [] rfl rfl rfl rfl rfl rfl rfl

/-- C3 counterexample: at the first tick of a fade toward neutral (time 0, end
2, length 2) the code applies the computed target 3700K, while the claimed
alpha — elapsed over duration, clamped, inverted because the direction is
toward neutral — is 1, which would apply 6500K. -/
theorem fade_alpha_claimed_counterexample :
    tick opts0 fade_state fade_inp0 =
      TickResult.cont fade_state_zero [BackendCall.setTemp 3700] ∧
    alpha_claimed 0 2 2 true = 1 ∧
    apply_adjustment (alpha_claimed 0 2 2 true)
      (calculate_temp (-10) 5500 3700) = 6500 ∧
    BackendCall.setTemp 3700 ≠ BackendCall.setTemp 6500 := by
  refine ⟨?_, ?_, ?_, by simp⟩
  · norm_num [tick, tick_state, handle_disable, handle_exiting,
      create_transition, update_transition, trans_alpha, finish_transition,
      apply_adjustment, clamp01, calculate_temp, interp_a, ctrunc,
      TRANSITION_LOW, TRANSITION_HIGH, fade_state, fade_state_zero, fade_inp0,
      opts0, min_def, max_def]
  · norm_num [alpha_claimed, clamp01, min_def, max_def]
  · norm_num [alpha_claimed, apply_adjustment, clamp01, calculate_temp,
      interp_a, ctrunc, TRANSITION_LOW, TRANSITION_HIGH, min_def, max_def]

/-- C3 (amended): while a short transition is in flight (now at most the end
time), the stored fade fraction is the clamp to [0,1] of the remaining time
over the duration, inverted to elapsed over duration when the direction is
toward neutral (short_trans_begin false), and the tick applies exactly the
truncation of alpha*6500 + (1-alpha)*target for the target computed from the
current elevation. -/
theorem tick_fade_formula (opts : RsOpts) (s0 : EngineState) (inp : TickInput)
    (now : ℚ) (s1 : EngineState) (cs : List BackendCall)
    (hd : inp.disable = false) (hex : inp.exiting = false)
    (htime : inp.time = some now) (hok : inp.set_temp_ok = true)
    (htr : s0.short_trans = true) (hcr : s0.short_trans_create = false)
    (hfin : s0.short_trans_done = false) (hdone : s0.done = false)
    (hle : now ≤ s0.short_trans_end)
    (heq : tick opts s0 inp = TickResult.cont s1 cs) :
    s1.adjustment_alpha =
      clamp01 (if s0.short_trans_begin then
          (s0.short_trans_end - now) / (s0.short_trans_len : ℚ)
        else 1 - (s0.short_trans_end - now) / (s0.short_trans_len : ℚ)) ∧
    cs = [BackendCall.setTemp (apply_adjustment s1.adjustment_alpha
      (calculate_temp inp.elevation opts.temp_day opts.temp_night))] := by
  have hngt : ¬ now > s0.short_trans_end := not_lt.mpr hle
  have hcomp : tick opts s0 inp = TickResult.cont
      { s0 with adjustment_alpha := trans_alpha now s0 }
      [BackendCall.setTemp (apply_adjustment (trans_alpha now s0)
        (calculate_temp inp.elevation opts.temp_day opts.temp_night))] := by
    simp only [tick, htime]
    simp [tick_state, handle_disable, handle_exiting, create_transition,
      update_transition, finish_transition, hd, hex, hdone, htr, hcr, hfin,
      hngt, hok]
  rw [hcomp] at heq
  rw [TickResult.cont.injEq] at heq
  rw [← heq.1, ← heq.2]
  exact ⟨rfl, rfl⟩

/-- Witness for tick_fade_formula: the tick of fade_state at time 1, giving
alpha 1/2 and an applied temperature of 5100K. -/
theorem tick_fade_formula_witness :
    fade_state_mid.adjustment_alpha =
      clamp01 (if fade_state.short_trans_begin then
          (fade_state.short_trans_end - 1) / (fade_state.short_trans_len : ℚ)
        else 1 - (fade_state.short_trans_end - 1) / (fade_state.short_trans_len : ℚ)) ∧
    [BackendCall.setTemp 5100] =
      [BackendCall.setTemp (apply_adjustment fade_state_mid.adjustment_alpha
        (calculate_temp fade_inp.elevation opts0.temp_day opts0.temp_night))] :=
  tick_fade_formula opts0 fade_state fade_inp 1 fade_state_mid
    [BackendCall.setTemp 5100] rfl rfl rfl rfl rfl rfl rfl rfl
    (by norm_num [fade_state])
    (by norm_num [tick, tick_state, handle_disable, handle_exiting,
      create_transition, update_transition, trans_alpha, finish_transition,
      apply_adjustment, clamp01, calculate_temp, interp_a, ctrunc,
      TRANSITION_LOW, TRANSITION_HIGH, fade_state, fade_state_mid, fade_inp,
      opts0, min_def, max_def])

/-- C8: a disable event while enabled requests a 2-second transition toward
neutral (length 2, direction toward 6500K, engine marked disabled); a disable
event while disabled requests a 2-second transition back.  In the concrete
scenario the fade toward neutral ends with a restore of the saved ramps, and
after the second fade the applied temperature is again the computed target
3700K, not the neutral 6500K. -/
theorem disable_toggle :
    (∀ s : EngineState, s.disabled = false →
      (handle_disable s true).short_trans_create = true ∧
      (handle_disable s true).short_trans_len = 2 ∧
      (handle_disable s true).short_trans_begin = false ∧
      (handle_disable s true).adjustment_alpha = 1 ∧
      (handle_disable s true).disabled = true) ∧
    (∀ s : EngineState, s.disabled = true →
      (handle_disable s true).short_trans_create = true ∧
      (handle_disable s true).short_trans_len = 2 ∧
      (handle_disable s true).short_trans_begin = true ∧
      (handle_disable s true).adjustment_alpha = 0 ∧
      (handle_disable s true).disabled = false) ∧
    do_continous opts0 init_state disable_scenario =
      ([BackendCall.setTemp 3700, BackendCall.setTemp 5100, BackendCall.restore,
        BackendCall.setTemp 6500, BackendCall.setTemp 3700], ExitKind.running) ∧
    calculate_temp (-10) 5500 3700 = 3700 ∧
    (3700 : ℤ) ≠ 6500 := by
  refine ⟨?_, ?_, ?_, ?_, by norm_num⟩
  · intro s h
    unfold handle_disable
    rw [h]
    exact ⟨rfl, rfl, rfl, rfl, rfl⟩
  · intro s h
    unfold handle_disable
    rw [h]
    exact ⟨rfl, rfl, rfl, rfl, rfl⟩
  · norm_num [do_continous, disable_scenario, tick, tick_state, handle_disable,
      handle_exiting, create_transition, update_transition, trans_alpha,
      finish_transition, apply_adjustment, clamp01, calculate_temp, interp_a,
      ctrunc, TRANSITION_LOW, TRANSITION_HIGH, init_state, opts0,
      min_def, max_def]
  · norm_num [calculate_temp, TRANSITION_LOW]

/-- Witness for disable_toggle: the disable event applied to the initial
(enabled) state. -/
theorem disable_toggle_witness :
    (handle_disable init_state true).short_trans_create = true ∧
    (handle_disable init_state true).short_trans_len = 2 ∧
    (handle_disable init_state true).short_trans_begin = false ∧
    (handle_disable init_state true).adjustment_alpha = 1 ∧
    (handle_disable init_state true).disabled = true :=
  disable_toggle.1 init_state rfl

lemma std_handle_disable (s : EngineState) (d : Bool) :
    (handle_disable s d).short_trans_done = s.short_trans_done := by
  unfold handle_disable
  split
  · split <;> rfl
  · rfl

lemma std_handle_exiting (s : EngineState) (ex : Bool) :
    (handle_exiting s ex).short_trans_done = s.short_trans_done := by
  unfold handle_exiting
  split
  · split
    · rfl
    · split <;> rfl
  · rfl

lemma st_handle_disable (s : EngineState) (d : Bool) :
    (handle_disable s d).short_trans = s.short_trans := by
  unfold handle_disable
  split
  · split <;> rfl
  · rfl

lemma st_handle_exiting_false (s : EngineState) (ex : Bool)
    (h : s.short_trans = false) :
    (handle_exiting s ex).short_trans = false := by
  unfold handle_exiting
  split
  · split
    · rfl
    · split <;> exact h
  · exact h

lemma s4_std_imp_not_st (tr : Bool) (s2 : EngineState) (now : ℚ)
    (hstd : s2.short_trans_done = false)
    (htr : tr = true ∨ s2.short_trans = false) :
    (update_transition now (create_transition tr now s2)).short_trans_done = true →
    (update_transition now (create_transition tr now s2)).short_trans = false := by
  unfold create_transition update_transition
  rcases htr with htr | htr
  · subst htr
    by_cases hc : s2.short_trans_create
    · simp only [hc, if_true, if_pos]
      by_cases ht : now > now + (s2.short_trans_len : ℚ)
      · simp [ht]
      · simp [ht, hstd]
    · simp only [hc, if_false, Bool.false_eq_true]
      by_cases ht : s2.short_trans
      · simp only [ht, if_true]
        by_cases hgt : now > s2.short_trans_end
        · simp [hgt]
        · simp [hgt, hstd]
      · simp [ht, hstd]
  · by_cases hc : s2.short_trans_create
    · by_cases htt : tr
      · simp only [hc, htt, if_true]
        by_cases hgt : now > now + (s2.short_trans_len : ℚ)
        · simp [hgt]
        · simp [hgt, hstd]
      · simp only [hc, htt, if_true, if_false, Bool.false_eq_true]
        simp [htr]
    · simp [hc, htr, hstd]

lemma tick_state_restore_shape (opts : RsOpts) (s0 : EngineState)
    (inp : TickInput) (now : ℚ)
    (hstd : s0.short_trans_done = false)
    (htr : opts.transition = true ∨ s0.short_trans = false) :
    (tick_state opts s0 inp now).2 = [] ∨
    ((tick_state opts s0 inp now).2 = [BackendCall.restore] ∧
     (tick_state opts s0 inp now).1.short_trans = false ∧
     (tick_state opts s0 inp now).1.disabled = true) := by
  have h2std : (handle_exiting (handle_disable s0 inp.disable) inp.exiting).short_trans_done
      = false := by
    rw [std_handle_exiting, std_handle_disable]; exact hstd
  have h2tr : opts.transition = true ∨
      (handle_exiting (handle_disable s0 inp.disable) inp.exiting).short_trans = false := by
    refine htr.imp id fun h => ?_
    exact st_handle_exiting_false _ _ (by rw [st_handle_disable]; exact h)
  have hkey := s4_std_imp_not_st opts.transition
    (handle_exiting (handle_disable s0 inp.disable) inp.exiting) now h2std h2tr
  simp only [tick_state, finish_transition]
  split
  · rename_i hfin
    have hst := hkey hfin
    split
    · rename_i hdis
      right
      refine ⟨rfl, ?_, hdis⟩
      exact hst
    · left; rfl
  · left; rfl

/-- C1 counterexample: a tick whose clock read fails makes the engine free the
backend state and exit with only that one call — no restore is attempted on
this exit path, so no restore-then-free pair executes. -/
theorem fatal_path_counterexample :
    do_continous opts0 init_state [clock_fail_inp] =
      ([BackendCall.free], ExitKind.fatal) ∧
    BackendCall.restore ∉ [BackendCall.free] := by
  constructor
  · simp [do_continous, tick, clock_fail_inp]
  · simp

/-- C1 (amended): on the fatal error paths (failing clock read, failing
set_temperature) the engine frees the backend state and exits without
attempting a restore, both in the continuous loop and in one-shot mode; the
restore-then-free pair executes only when the continuous loop terminates
normally. -/
theorem fatal_paths_free_without_restore :
    (∀ (opts : RsOpts) (s0 : EngineState) (inp : TickInput) (cs : List BackendCall),
      s0.short_trans_done = false →
      (opts.transition = true ∨ s0.short_trans = false) →
      tick opts s0 inp = TickResult.fatal cs →
      BackendCall.free ∈ cs ∧ BackendCall.restore ∉ cs) ∧
    (∀ (opts : RsOpts) (s0 : EngineState) (inps : List TickInput) (cs : List BackendCall),
      do_continous opts s0 inps = (cs, ExitKind.normal) →
      ∃ pre, cs = pre ++ [BackendCall.restore, BackendCall.free]) ∧
    (∀ (opts : RsOpts) (time : Option ℚ) (elev : ℚ) (ok : Bool) (cs : List BackendCall),
      do_oneshot opts time elev ok = (cs, ExitKind.fatal) →
      BackendCall.free ∈ cs ∧ BackendCall.restore ∉ cs) := by
  refine ⟨?_, ?_, ?_⟩
  · intro opts s0 inp cs hstd htr heq
    cases htime : inp.time with
    | none =>
      simp only [tick, htime] at heq
      rw [TickResult.fatal.injEq] at heq
      rw [← heq]
      simp
    | some now =>
      simp only [tick, htime] at heq
      split at heq
      · simp at heq
      · rename_i hguard
        split at heq
        · rename_i hsel
          split at heq
          · simp at heq
          · rw [TickResult.fatal.injEq] at heq
            rcases tick_state_restore_shape opts s0 inp now hstd htr with
              hsh | ⟨hsh, hst, hdis⟩
            · rw [← heq, hsh]
              simp
            · rw [hst, hdis] at hsel
              simp at hsel
        · simp at heq
  · intro opts s0 inps
    induction inps generalizing s0 with
    | nil =>
      intro cs h
      simp [do_continous] at h
    | cons i is ih =>
      intro cs h
      simp only [do_continous] at h
      cases htick : tick opts s0 i with
      | cont s1 tcs =>
        rw [htick] at h
        simp only [Prod.mk.injEq] at h
        obtain ⟨pre, hp⟩ := ih s1 (do_continous opts s1 is).1
          (Prod.ext_iff.mpr ⟨rfl, h.2⟩)
        exact ⟨tcs ++ pre, by rw [← h.1, hp, List.append_assoc]⟩
      | brk tcs =>
        rw [htick] at h
        simp only [Prod.mk.injEq] at h
        exact ⟨tcs, h.1.symm⟩
      | fatal tcs =>
        rw [htick] at h
        simp at h
  · intro opts time elev ok cs h
    cases time with
    | none =>
      simp only [do_oneshot, Prod.mk.injEq] at h
      rw [← h.1]
      simp
    | some t =>
      simp only [do_oneshot] at h
      by_cases hok : ok = true
      · rw [if_pos hok] at h
        simp at h
      · rw [if_neg hok] at h
        simp only [Prod.mk.injEq] at h
        rw [← h.1]
        simp

/-- Witness for fatal_paths_free_without_restore: the clock-failure tick from
the initial state. -/
theorem fatal_paths_free_without_restore_witness :
    BackendCall.free ∈ [BackendCall.free] ∧
    BackendCall.restore ∉ [BackendCall.free] :=
  fatal_paths_free_without_restore.1 opts0 init_state clock_fail_inp
    [BackendCall.free] rfl (Or.inl rfl) rfl

end Redshift
